import Mathlib

/-!
Shallow embedding of the `jmcomic_ai` service orchestration layer
(`src/jmcomic_ai/core.py`).  External collaborators (the `jmcomic`
library client, the YAML parser, the filesystem) are passed in as
explicit function parameters or modelled as explicit state, so every
definition below is executable and the control flow mirrors the Python
source line by line.
-/

namespace JmcomicAi

/-- Nested configuration value: a YAML-like document made of string
leaves and string-keyed mappings.  This is the shape of the dictionary
returned by `JmOption.deconstruct` and consumed by
`JmOption.merge_default_dict` / `JmOption.construct`. -/
inductive Val where
  | leaf : String → Val
  | node : List (String × Val) → Val
deriving Repr

mutual

/-- Modelled from the spec: `JmOption.merge_default_dict(user, default)`
lives in the external `jmcomic` library (not under `src/`).  The spec
describes it as a deep merge: numeric/string leaves of the user dict
overwrite the default, nested mappings are merged key-by-key, and keys
unspecified by the user are preserved from the default. -/
def mergeVal : Val → Val → Val
  | Val.node us, Val.node ds =>
      Val.node (mergeEntries us ds ++
        us.filter fun ku => (ds.find? fun kd => kd.1 == ku.1).isNone)
  | u, _ => u

/-- Merge the user entries `us` into the default entry list, walking the
default list; keys present in both are merged recursively. -/
def mergeEntries (us : List (String × Val)) : List (String × Val) → List (String × Val)
  | [] => []
  | (k, dv) :: rest =>
      (match us.find? fun ku => ku.1 == k with
       | some ku => (k, mergeVal ku.2 dv)
       | none => (k, dv)) :: mergeEntries us rest

end

/-- A validated settings document (`JmOption` in the source).  The
external validation performed by `JmOption.construct` is abstracted as
an explicit `validate` parameter at each use site. -/
structure JmOption where
  data : Val
deriving Repr

/-- `JmOption.deconstruct`: the full dictionary form of the document. -/
def JmOption.deconstruct (o : JmOption) : Val := o.data

/-- The filesystem state relevant to the option file: the (parsed)
content stored at the resolved option path, if the path exists, and
whether the parent directories of the path exist. -/
structure FsState where
  file : Option Val
  parent_dirs : Bool
deriving Repr

/-- `JmcomicService._load_option` (core.py lines 82-95).  `validate`
stands for the parse-and-construct check done by
`create_option_by_file`: `none` means the file parses and validates,
`some e` means loading raises error `e`.  `dflt` is the dictionary form
of `JmModuleConfig.option_class().default()`.  If the path does not
exist, parent directories are created, the default document is written
to the path and returned; otherwise the file is parsed, and a parse or
validation error propagates to the caller as `Except.error`. -/
def load_option (validate : Val → Option String) (dflt : Val) (fs : FsState) :
    FsState × Except String JmOption :=
  match fs.file with
  | none =>
      ({ file := some dflt, parent_dirs := true }, Except.ok ⟨dflt⟩)
  | some d =>
      (fs, match validate d with
           | none => Except.ok ⟨d⟩
           | some e => Except.error e)

/-- The in-memory service state touched by `update_option`: the active
option document and the filesystem at the option path. -/
structure ServiceState where
  option : JmOption
  fs : FsState
deriving Repr

/-- `JmcomicService.update_option` (core.py lines 149-192).  Steps, as
in the source: deconstruct the current option, deep-merge the updates
onto it, validate the merged dictionary via `construct` (abstracted as
`validate`), write the new document to the option path (`to_file`),
reload the option from the file (`reload_option`, which re-runs
`_load_option`), and return a success message; any failure is caught
and returned as a failure message, with no exception escaping. -/
def update_option (validate : Val → Option String) (dflt : Val)
    (option_path : String) (st : ServiceState) (option_updates : Val) :
    ServiceState × String :=
  let current_option := st.option.deconstruct
  let merged_option := mergeVal option_updates current_option
  match validate merged_option with
  | some e => (st, "option update failed: " ++ e)
  | none =>
      let fs1 : FsState := { st.fs with file := some merged_option }
      match load_option validate dflt fs1 with
      | (fs2, Except.ok newOpt) =>
          ({ option := newOpt, fs := fs2 },
           "option updated and saved to " ++ option_path)
      | (fs2, Except.error e) =>
          ({ st with fs := fs2 }, "option update failed: " ++ e)

/-- Does the string start with the character `c`?  (Model of Python
`str.startswith` on a single-character argument.) -/
def startsWithChar (s : String) (c : Char) : Bool :=
  match s.toList with
  | [] => false
  | a :: _ => a == c

/-- Model of Python `str.lower()` (ASCII case folding, which is all the
lookup keys and file suffixes here use). -/
def pyLower (s : String) : String :=
  String.mk (s.toList.map Char.toLower)

/-- Model of `pathlib.Path.resolve()`: an absolute path is returned
unchanged, a relative path is made absolute against the current working
directory (symlink resolution is not modelled). -/
def resolvePath (cwd p : String) : String :=
  if startsWithChar p '/' then p else cwd ++ "/" ++ p

/-- `DEFAULT_OPTION_PATH = Path.home() / ".jmcomic" / "option.yml"`
(core.py line 26). -/
def DEFAULT_OPTION_PATH (home : String) : String :=
  home ++ "/.jmcomic/option.yml"

/-- `resolve_option_path` (core.py lines 29-71).  `cli_path` and
`env_path` model the CLI argument and the `JM_OPTION_PATH` environment
variable; a `none` or empty string is falsy in Python and falls through
to the next tier.  The CLI and environment tiers call
`Path(...).resolve()`, which absolutizes relative paths against the
current working directory `cwd`; the default tier returns the
home-based constant unresolved. -/
def resolve_option_path (cwd home : String) (cli_path env_path : Option String) : String :=
  if cli_path.getD "" ≠ "" then resolvePath cwd (cli_path.getD "")
  else if env_path.getD "" ≠ "" then resolvePath cwd (env_path.getD "")
  else DEFAULT_OPTION_PATH home

/-- One album entry produced by `_parse_search_page`. -/
structure AlbumBrief where
  id : String
  title : String
deriving Repr, DecidableEq

/-- The page returned by the content client's `categories_filter` /
`search` calls, already reduced to what `_parse_search_page` extracts:
the album entries and the total count. -/
structure SearchResult where
  albums : List AlbumBrief
  total : Nat
deriving Repr, DecidableEq

/-- Result dictionary of `browse_albums`: album list, total count and
an optional error message (the `error` key is present only on the
validation-failure paths). -/
structure BrowseResult where
  albums : List AlbumBrief
  total_count : Nat
  error : Option String
deriving Repr, DecidableEq

/-- `category_map` (core.py lines 356-368).  Keys are from the source;
the mapped values are `JmMagicConstants` members of the external
`jmcomic` library, modelled as distinct opaque strings (the claims
depend only on the key set). -/
def category_map : List (String × String) :=
  [("all", "0"), ("0", "0"), ("doujin", "doujin"), ("single", "single"),
   ("short", "short"), ("hanman", "hanman"), ("meiman", "meiman"),
   ("doujin_cosplay", "doujin_cosplay"), ("3d", "3D"),
   ("another", "another"), ("english_site", "english_site")]

/-- `time_map` (core.py lines 371-377), values as in `JmMagicConstants`. -/
def time_map : List (String × String) :=
  [("all", "a"), ("day", "t"), ("today", "t"), ("week", "w"), ("month", "m")]

/-- `order_map` (core.py lines 380-387), values as in `JmMagicConstants`
(`mr`, `tf`, `mv`, `mp`, `tr`, `md` per the source comments). -/
def order_map : List (String × String) :=
  [("latest", "mr"), ("likes", "tf"), ("views", "mv"),
   ("pictures", "mp"), ("score", "tr"), ("comments", "md")]

/-- Python `dict.get`: first binding of the key, if any. -/
def mapGet (m : List (String × String)) (k : String) : Option String :=
  (m.find? fun kv => kv.1 == k).map Prod.snd

/-- Python `", ".join(m.keys())` in insertion order. -/
def mapKeys (m : List (String × String)) : String :=
  String.intercalate ", " (m.map Prod.fst)

/-- `JmcomicService.browse_albums` (core.py lines 287-426), its
validation and dispatch logic.  `client` stands for
`client.categories_filter` composed with `_parse_search_page`; the
returned boolean records whether the content client was contacted.
Each of the three parameters is looked up case-insensitively in its
fixed map; the first failing lookup short-circuits with an error result
listing the valid options, and the client is never called. -/
def browse_albums (client : String → String → String → Nat → SearchResult)
    (category time_range order_by : String) (page : Nat) :
    BrowseResult × Bool :=
  match mapGet category_map (pyLower category) with
  | none =>
      ({ albums := [], total_count := 0,
         error := some ("Invalid category: " ++ category ++
           ". Valid options: " ++ mapKeys category_map) }, false)
  | some category_value =>
    match mapGet time_map (pyLower time_range) with
    | none =>
        ({ albums := [], total_count := 0,
           error := some ("Invalid time_range: " ++ time_range ++
             ". Valid options: " ++ mapKeys time_map) }, false)
    | some time_value =>
      match mapGet order_map (pyLower order_by) with
      | none =>
          ({ albums := [], total_count := 0,
             error := some ("Invalid order_by: " ++ order_by ++
               ". Valid options: " ++ mapKeys order_map) }, false)
      | some order_value =>
          let search_page := client category_value time_value order_value page
          ({ albums := search_page.albums, total_count := search_page.total,
             error := none }, true)

/-- A chapter (photo) of an album, as much of `JmPhotoDetail` as the
claims need. -/
structure JmPhoto where
  photo_id : String
deriving Repr, DecidableEq

/-- Album metadata (`JmAlbumDetail`): identity, title, and the chapter
list that `for photo in album` iterates over. -/
structure JmAlbumDetail where
  album_id : String
  name : String
  photos : List JmPhoto
deriving Repr, DecidableEq

/-- Result dictionary of `download_album` (core.py lines 550-556). -/
structure DownloadResult where
  status : String
  album_id : String
  title : String
  download_path : String
  error : Option String
deriving Repr, DecidableEq

/-- `JmcomicService.download_album` (core.py lines 428-556), reduced to
its exception flow.  `get_album_detail` is the initial synchronous
metadata fetch (NOT inside any try-block: its failure propagates as
`Except.error`).  `decide_album_root_dir` is
`self.option.dir_rule.decide_album_root_dir`.  `blocking_download` is
the recursive download executed via `asyncio.to_thread`; its failure is
caught and converted into a `status="failed"` result carrying the
exception text, with `download_path` still the pre-computed target. -/
def download_album (get_album_detail : String → Except String JmAlbumDetail)
    (decide_album_root_dir : JmAlbumDetail → String)
    (blocking_download : String → Except String Unit)
    (album_id : String) : Except String DownloadResult :=
  match get_album_detail album_id with
  | Except.error e => Except.error e
  | Except.ok album =>
      let target_path := decide_album_root_dir album
      match blocking_download album_id with
      | Except.ok _ =>
          Except.ok { status := "success", album_id := album_id,
                      title := album.name, download_path := target_path,
                      error := none }
      | Except.error e =>
          Except.ok { status := "failed", album_id := album_id,
                      title := album.name, download_path := target_path,
                      error := some e }

/-- Chapter metadata read back after a chapter download
(`client.get_photo_detail`): identity, name and `len(photo)`. -/
structure JmPhotoDetail where
  photo_id : String
  name : String
  image_count : Nat
deriving Repr, DecidableEq

/-- Result dictionary of `download_photo` (core.py lines 663-669). -/
structure PhotoResult where
  status : String
  photo_id : String
  image_count : Nat
  download_path : String
  error : Option String
deriving Repr, DecidableEq

/-- `JmcomicService.download_photo` (core.py lines 558-669), reduced to
its exception flow.  The try-block covers the offloaded download AND
the post-read (`get_photo_detail`, `decide_image_save_dir`,
`len(photo)`): a failure anywhere in it yields the same
`status="failed"` result shape with the exception text, empty download
path and zero image count. -/
def download_photo (blocking_download : String → Except String Unit)
    (get_photo_detail : String → Except String JmPhotoDetail)
    (decide_image_save_dir : JmPhotoDetail → Except String String)
    (photo_id : String) : PhotoResult :=
  match blocking_download photo_id with
  | Except.error e =>
      { status := "failed", photo_id := photo_id, image_count := 0,
        download_path := "", error := some e }
  | Except.ok _ =>
    match get_photo_detail photo_id with
    | Except.error e =>
        { status := "failed", photo_id := photo_id, image_count := 0,
          download_path := "", error := some e }
    | Except.ok photo =>
      match decide_image_save_dir photo with
      | Except.error e =>
          { status := "failed", photo_id := photo_id, image_count := 0,
            download_path := "", error := some e }
      | Except.ok dir =>
          { status := "success", photo_id := photo_id,
            image_count := photo.image_count, download_path := dir,
            error := none }

/-- Look up a chapter's `(current, total)` pair in the
`photo_progress` dictionary (assoc list keyed by photo id). -/
def lookupProgress (progress : List (String × Nat × Nat)) (pid : String) :
    Option (Nat × Nat) :=
  (progress.find? fun kv => kv.1 == pid).map Prod.snd

/-- Overwrite a chapter's `(current, total)` pair in the
`photo_progress` dictionary. -/
def setProgress (progress : List (String × Nat × Nat)) (pid : String)
    (v : Nat × Nat) : List (String × Nat × Nat) :=
  progress.map fun kv => if kv.1 == pid then (kv.1, v) else kv

/-- `McpProgressDownloader.after_image` (core.py lines 510-526), the
album-level per-image completion handler: if the chapter is tracked in
`photo_progress`, increment its counter and read `(current, total)`;
a message `"Chapter {id}: {current}/{total}"` is emitted only when
`total > 0`, and no message at all is emitted otherwise (untracked
chapter, or tracked with total 0).  Returns the updated dictionary and
the emitted message, if any. -/
def McpProgressDownloader.after_image (progress : List (String × Nat × Nat))
    (photo_id : String) : List (String × Nat × Nat) × Option String :=
  match lookupProgress progress photo_id with
  | none => (progress, none)
  | some ct =>
      let current := ct.1 + 1
      let total := ct.2
      (setProgress progress photo_id (current, total),
       if 0 < total then
         some ("Chapter " ++ photo_id ++ ": " ++ toString current ++ "/" ++
           toString total)
       else none)

/-- `McpPhotoProgressDownloader.after_image` (core.py lines 617-634),
the chapter-level per-image completion handler: increment the counter;
when the total is positive emit a percentage message
`"Downloading: {p}% ({current}/{total})"` (the Python float expression
`int((current / total) * 100)` is modelled as exact truncated
division), otherwise emit the plain count message
`"Downloading: {current} images downloaded"`.  Returns the new counter
and the message. -/
def McpPhotoProgressDownloader.after_image (current total : Nat) :
    Nat × String :=
  let c := current + 1
  if 0 < total then
    (c, "Downloading: " ++ toString (c * 100 / total) ++ "% (" ++
      toString c ++ "/" ++ toString total ++ ")")
  else
    (c, "Downloading: " ++ toString c ++ " images downloaded")

/-- Model of `pathlib.PurePath.suffix` on a file name: the substring
from the last dot, provided that dot is neither the first nor the last
character; otherwise the empty string. -/
def lastDotIdx : List Char → Option Nat
  | [] => none
  | c :: cs =>
      match lastDotIdx cs with
      | some i => some (i + 1)
      | none => if c = '.' then some 0 else none

/-- `Path(file).suffix` for a bare file name. -/
def pathSuffix (name : String) : String :=
  let cs := name.toList
  match lastDotIdx cs with
  | some i => if 0 < i ∧ i < cs.length - 1 then String.mk (cs.drop i) else ""
  | none => ""

/-- Model of Python `sorted(...)` over same-directory file names:
a stable sort by the lexicographic string order. -/
def sortStrings (l : List String) : List String :=
  List.insertionSort (· ≤ ·) l

/-- The recognized image formats of `post_process` (core.py line 778). -/
def IMAGE_SUFFIXES : List String := [".jpg", ".jpeg", ".png", ".webp", ".gif"]

/-- The per-file filter of `post_process` (core.py lines 777-780):
`file.suffix.lower() in (...) and not file.name.startswith('.')`. -/
def isImageFile (f : String) : Bool :=
  IMAGE_SUFFIXES.contains (pyLower (pathSuffix f)) && !(startsWithChar f '.')

/-- The per-directory collection step of `post_process` (core.py lines
775-781): iterate the directory listing in sorted order and keep the
recognized, non-hidden image files. -/
def collectImages (files : List String) : List String :=
  (sortStrings files).filter isImageFile

/-- The manifest-reconstruction loop of `post_process` (core.py lines
770-784): for each chapter of the album, resolve its predicted
directory (`decide_image_save_dir`); an absent directory skips the
chapter; a present directory contributes its collected image files, and
the chapter enters `photo_dict` only when that list is non-empty.
`fs` maps a directory path to its listing (`none` = directory absent). -/
def photoEntry (fs : String → Option (List String))
    (decide_image_save_dir : JmPhoto → String) (photo : JmPhoto) :
    Option (JmPhoto × List String) :=
  match fs (decide_image_save_dir photo) with
  | none => none
  | some files =>
      let images := collectImages files
      if images.isEmpty then none else some (photo, images)

/-- The whole manifest loop: one `photoEntry` attempt per chapter. -/
def buildPhotoDict (fs : String → Option (List String))
    (decide_image_save_dir : JmPhoto → String)
    (photos : List JmPhoto) : List (JmPhoto × List String) :=
  photos.filterMap (photoEntry fs decide_image_save_dir)

/-- Result dictionary of `post_process` (core.py lines 733-866). -/
structure PostProcessResult where
  status : String
  album_id : String
  process_type : String
  output_path : String
  is_directory : Bool
  message : String
deriving Repr, DecidableEq

/-- `JmcomicService.post_process` (core.py lines 733-866) up to and
including the empty-manifest gate.  The plugin lookup, parameter
merging, invocation and output-path prediction that follow a non-empty
manifest are abstracted as `plugin_stage`; the returned boolean records
whether control reached that stage.  When the manifest is empty the
function returns the error result built at lines 790-797 — its
`message` names only the album id; the expected root directory
(`decide_album_root_dir`) is computed for the log statement at line 789
but is not part of the returned message. -/
def post_process (fs : String → Option (List String))
    (decide_image_save_dir : JmPhoto → String)
    (decide_album_root_dir : JmAlbumDetail → String)
    (plugin_stage : JmAlbumDetail → List (JmPhoto × List String) → PostProcessResult)
    (album : JmAlbumDetail) (album_id process_type : String) :
    PostProcessResult × Bool :=
  let photo_dict := buildPhotoDict fs decide_image_save_dir album.photos
  if photo_dict.isEmpty then
    let _expected_path := decide_album_root_dir album
    ({ status := "error", album_id := album_id, process_type := process_type,
       output_path := "", is_directory := false,
       message := "Error: No downloaded images found for album " ++
         album_id ++ "." }, false)
  else
    (plugin_stage album photo_dict, true)

/-- Does `needle` occur as a contiguous run inside `hay`? -/
def charsContain : List Char → List Char → Bool
  | [], needle => needle.isEmpty
  | c :: t, needle => needle.isPrefixOf (c :: t) || charsContain t needle

/-- Substring test on strings, used to state what a message does or
does not mention. -/
def strContains (hay needle : String) : Bool :=
  charsContain hay.toList needle.toList

/-! ## Theorems -/

/-- C1: `update_option` never raises; it deep-merges the updates onto
the full deconstruction of the active document and validates the
merged document as a whole.  On validation failure it returns a
failure message and the service state — in particular the in-memory
active option — is exactly unchanged; on validation success the merged
document is first persisted to the option path and then swapped in as
the active option. -/
theorem update_option_merge_validate_persist_swap
    (validate : Val → Option String) (dflt : Val) (path : String)
    (st : ServiceState) (U : Val) :
    (∀ e, validate (mergeVal U st.option.deconstruct) = some e →
        update_option validate dflt path st U =
          (st, "option update failed: " ++ e)) ∧
    (validate (mergeVal U st.option.deconstruct) = none →
        update_option validate dflt path st U =
          ({ option := ⟨mergeVal U st.option.deconstruct⟩,
             fs := { st.fs with file := some (mergeVal U st.option.deconstruct) } },
           "option updated and saved to " ++ path)) := by
  constructor
  · intro e he
    simp [update_option, he]
  · intro hv
    simp [update_option, hv, load_option]

/-- Witness for C1: a concrete successful update is persisted and
swapped in. -/
theorem update_option_merge_validate_persist_swap_witness :
    update_option (fun _ => none) (Val.node []) "/tmp/option.yml"
        { option := ⟨Val.node []⟩,
          fs := { file := some (Val.node []), parent_dirs := true } }
        (Val.node [])
      = ({ option := ⟨Val.node []⟩,
           fs := { file := some (Val.node []), parent_dirs := true } },
         "option updated and saved to /tmp/option.yml") :=
  (update_option_merge_validate_persist_swap (fun _ => none) (Val.node [])
    "/tmp/option.yml"
    { option := ⟨Val.node []⟩,
      fs := { file := some (Val.node []), parent_dirs := true } }
    (Val.node [])).2 rfl

/-- C5: if the option path does not exist, `_load_option` creates the
parent directories, synthesizes the default document and persists it at
the path before returning it; after any successful load the path
exists; and a malformed existing file makes the load error propagate to
the caller instead of being swallowed or replaced by defaults. -/
theorem load_option_default_or_propagate
    (validate : Val → Option String) (dflt : Val) (fs : FsState) :
    (fs.file = none →
        load_option validate dflt fs =
          ({ file := some dflt, parent_dirs := true }, Except.ok ⟨dflt⟩)) ∧
    (∀ d e, fs.file = some d → validate d = some e →
        load_option validate dflt fs = (fs, Except.error e)) ∧
    (∀ fs2 o, load_option validate dflt fs = (fs2, Except.ok o) →
        fs2.file.isSome = true) := by
  refine ⟨?_, ?_, ?_⟩
  · intro h
    simp [load_option, h]
  · intro d e hd he
    simp [load_option, hd, he]
  · intro fs2 o h
    cases hf : fs.file with
    | none =>
        simp [load_option, hf] at h
        simp [← h.1]
    | some d =>
        simp [load_option, hf] at h
        cases hv : validate d with
        | none => simp [← h.1, hf]
        | some e => simp [hv] at h

/-- Witness for C5: loading against an absent file persists and returns
the default document. -/
theorem load_option_default_or_propagate_witness :
    load_option (fun _ => none) (Val.node []) { file := none, parent_dirs := false }
      = ({ file := some (Val.node []), parent_dirs := true },
         Except.ok ⟨Val.node []⟩) :=
  (load_option_default_or_propagate (fun _ => none) (Val.node [])
    { file := none, parent_dirs := false }).1 rfl

/-- C6 counterexample: with the same explicit argument, the same
environment variable and the same home directory, `resolve_option_path`
returns different results for different working directories (a relative
explicit path is absolutized by `Path.resolve()` against the current
working directory), so it is not a function of only those three
inputs. -/
theorem resolve_option_path_cwd_counterexample :
    resolve_option_path "/cwd1" "/home/u" (some "opt.yml") none ≠
      resolve_option_path "/cwd2" "/home/u" (some "opt.yml") none := by
  decide

/-- C6 (amended): `resolve_option_path` is a deterministic function of
its explicit argument, the `JM_OPTION_PATH` environment variable, the
home directory and the current working directory used by
`Path.resolve()`, and applies the priority order: non-empty explicit
argument first, then the non-empty environment variable, then the fixed
default path `~/.jmcomic/option.yml`. -/
theorem resolve_option_path_priority (cwd home : String)
    (cli env : Option String) :
    (∀ p, cli = some p → p ≠ "" →
        resolve_option_path cwd home cli env = resolvePath cwd p) ∧
    ((cli = none ∨ cli = some "") → ∀ q, env = some q → q ≠ "" →
        resolve_option_path cwd home cli env = resolvePath cwd q) ∧
    ((cli = none ∨ cli = some "") → (env = none ∨ env = some "") →
        resolve_option_path cwd home cli env = DEFAULT_OPTION_PATH home) := by
  refine ⟨?_, ?_, ?_⟩
  · intro p hp hne
    simp [resolve_option_path, hp, hne]
  · intro hcli q hq hne
    rcases hcli with h | h <;> simp [resolve_option_path, h, hq, hne]
  · intro hcli henv
    rcases hcli with h | h <;> rcases henv with h2 | h2 <;>
      simp [resolve_option_path, h, h2]

/-- Witness for C6: the environment tier applies when the explicit
argument is empty. -/
theorem resolve_option_path_priority_witness :
    resolve_option_path "/c" "/h" (some "") (some "e.yml") =
      resolvePath "/c" "e.yml" :=
  (resolve_option_path_priority "/c" "/h" (some "") (some "e.yml")).2.1
    (Or.inr rfl) "e.yml" rfl (by decide)

/-- C10: a `browse_albums` call whose `category`, `time_range` or
`order_by` value (lowercased) is missing from its fixed mapping returns
an empty album list, `total_count = 0` and an error message listing the
valid options of that mapping, without contacting the content client
(and, being a total function, without raising). -/
theorem browse_albums_invalid_params
    (client : String → String → String → Nat → SearchResult)
    (category time_range order_by : String) (page : Nat) :
    (mapGet category_map (pyLower category) = none →
        browse_albums client category time_range order_by page =
          ({ albums := [], total_count := 0,
             error := some ("Invalid category: " ++ category ++
               ". Valid options: " ++ mapKeys category_map) }, false)) ∧
    (∀ cv, mapGet category_map (pyLower category) = some cv →
        mapGet time_map (pyLower time_range) = none →
        browse_albums client category time_range order_by page =
          ({ albums := [], total_count := 0,
             error := some ("Invalid time_range: " ++ time_range ++
               ". Valid options: " ++ mapKeys time_map) }, false)) ∧
    (∀ cv tv, mapGet category_map (pyLower category) = some cv →
        mapGet time_map (pyLower time_range) = some tv →
        mapGet order_map (pyLower order_by) = none →
        browse_albums client category time_range order_by page =
          ({ albums := [], total_count := 0,
             error := some ("Invalid order_by: " ++ order_by ++
               ". Valid options: " ++ mapKeys order_map) }, false)) := by
  refine ⟨?_, ?_, ?_⟩
  · intro h
    simp [browse_albums, h]
  · intro cv hc ht
    simp [browse_albums, hc, ht]
  · intro cv tv hc ht ho
    simp [browse_albums, hc, ht, ho]

/-- Witness for C10: an unknown category short-circuits with the error
result and the client is not contacted. -/
theorem browse_albums_invalid_params_witness :
    browse_albums (fun _ _ _ _ => { albums := [], total := 0 })
        "bogus" "all" "latest" 1 =
      ({ albums := [], total_count := 0,
         error := some ("Invalid category: bogus. Valid options: " ++
           mapKeys category_map) }, false) :=
  (browse_albums_invalid_params (fun _ _ _ _ => { albums := [], total := 0 })
    "bogus" "all" "latest" 1).1 rfl

/-- C2: when the initial metadata fetch succeeds and the offloaded
recursive download fails on the worker thread, `download_album` returns
normally (the worker exception never propagates: the result is
`Except.ok`, not `Except.error`) with `status = "failed"`, the error
field holding the exception text (non-empty whenever that text is),
and `download_path` equal to the root directory predicted from the
album metadata before the download started. -/
theorem download_album_worker_failure_contained
    (get_album_detail : String → Except String JmAlbumDetail)
    (decide_album_root_dir : JmAlbumDetail → String)
    (blocking_download : String → Except String Unit)
    (album_id : String) (album : JmAlbumDetail) (e : String)
    (hfetch : get_album_detail album_id = Except.ok album)
    (hworker : blocking_download album_id = Except.error e)
    (he : e ≠ "") :
    download_album get_album_detail decide_album_root_dir blocking_download
        album_id =
      Except.ok { status := "failed", album_id := album_id,
                  title := album.name,
                  download_path := decide_album_root_dir album,
                  error := some e } ∧
    some e ≠ some "" := by
  constructor
  · simp [download_album, hfetch, hworker]
  · simpa using he

/-- Witness for C2: a concrete failing worker yields the contained
failed result. -/
theorem download_album_worker_failure_contained_witness :
    download_album (fun _ => Except.ok { album_id := "123", name := "T", photos := [] })
        (fun _ => "/dl/T") (fun _ => Except.error "boom") "123" =
      Except.ok { status := "failed", album_id := "123", title := "T",
                  download_path := "/dl/T", error := some "boom" } ∧
    some "boom" ≠ some "" :=
  download_album_worker_failure_contained
    (fun _ => Except.ok { album_id := "123", name := "T", photos := [] })
    (fun _ => "/dl/T") (fun _ => Except.error "boom") "123"
    { album_id := "123", name := "T", photos := [] } "boom" rfl rfl (by decide)

/-- C9: if the initial synchronous album-metadata fetch raises, the
exception propagates uncaught out of `download_album` (the result is
`Except.error`, never a `status = "failed"` record); only worker-thread
failures are converted. -/
theorem download_album_fetch_failure_propagates
    (get_album_detail : String → Except String JmAlbumDetail)
    (decide_album_root_dir : JmAlbumDetail → String)
    (blocking_download : String → Except String Unit)
    (album_id : String) (e : String)
    (hfetch : get_album_detail album_id = Except.error e) :
    download_album get_album_detail decide_album_root_dir blocking_download
        album_id = Except.error e := by
  simp [download_album, hfetch]

/-- Witness for C9: a concrete failing metadata fetch propagates. -/
theorem download_album_fetch_failure_propagates_witness :
    download_album (fun _ => Except.error "not found") (fun _ => "/dl")
        (fun _ => Except.ok ()) "999" = Except.error "not found" :=
  download_album_fetch_failure_propagates (fun _ => Except.error "not found")
    (fun _ => "/dl") (fun _ => Except.ok ()) "999" "not found" rfl

/-- C8: in `download_photo`, a failure of the post-read
(`get_photo_detail` or `decide_image_save_dir`) after a successful
download yields the same `status = "failed"` result shape — with the
read error in the error field — as a failure of the download itself;
the two cases are not distinguished by a separate status code. -/
theorem download_photo_post_read_failure_is_failed
    (blocking_download : String → Except String Unit)
    (get_photo_detail : String → Except String JmPhotoDetail)
    (decide_image_save_dir : JmPhotoDetail → Except String String)
    (photo_id : String) :
    (∀ e, blocking_download photo_id = Except.error e →
        download_photo blocking_download get_photo_detail
            decide_image_save_dir photo_id =
          { status := "failed", photo_id := photo_id, image_count := 0,
            download_path := "", error := some e }) ∧
    (∀ e, blocking_download photo_id = Except.ok () →
        get_photo_detail photo_id = Except.error e →
        download_photo blocking_download get_photo_detail
            decide_image_save_dir photo_id =
          { status := "failed", photo_id := photo_id, image_count := 0,
            download_path := "", error := some e }) ∧
    (∀ p e, blocking_download photo_id = Except.ok () →
        get_photo_detail photo_id = Except.ok p →
        decide_image_save_dir p = Except.error e →
        download_photo blocking_download get_photo_detail
            decide_image_save_dir photo_id =
          { status := "failed", photo_id := photo_id, image_count := 0,
            download_path := "", error := some e }) := by
  refine ⟨?_, ?_, ?_⟩
  · intro e hw
    simp [download_photo, hw]
  · intro e hw hg
    simp [download_photo, hw, hg]
  · intro p e hw hg hd
    simp [download_photo, hw, hg, hd]

/-- Witness for C8: a successful download followed by a failing
metadata post-read still reports `status = "failed"` with the read
error. -/
theorem download_photo_post_read_failure_is_failed_witness :
    download_photo (fun _ => Except.ok ()) (fun _ => Except.error "read oops")
        (fun _ => Except.ok "/dl/p") "p1" =
      { status := "failed", photo_id := "p1", image_count := 0,
        download_path := "", error := some "read oops" } :=
  (download_photo_post_read_failure_is_failed (fun _ => Except.ok ())
    (fun _ => Except.error "read oops") (fun _ => Except.ok "/dl/p")
    "p1").2.1 "read oops" rfl rfl

/-- C4 counterexample: in the album-level progress downloader
(`McpProgressDownloader.after_image`), a chapter tracked with total 0
increments its counter but emits NO message at all — not the plain
count message the claim requires for chapters with zero total. -/
theorem after_image_zero_total_counterexample :
    McpProgressDownloader.after_image [("p", 0, 0)] "p" =
      ([("p", 1, 0)], none) ∧
    McpProgressDownloader.after_image [] "p" = ([], none) := by
  constructor <;> rfl

/-- C4 (amended): in the chapter-level downloader
(`McpPhotoProgressDownloader.after_image`) the percentage message is
computed only when the chapter total is positive, and a zero total
yields the plain count message instead; in the album-level downloader
(`McpProgressDownloader.after_image`) a count message is emitted only
for a chapter tracked with a positive total, and a zero or unknown
total emits no message at all. -/
theorem after_image_message_forms
    (progress : List (String × Nat × Nat)) (photo_id : String)
    (current total : Nat) :
    (0 < total →
        (McpPhotoProgressDownloader.after_image current total).2 =
          "Downloading: " ++ toString ((current + 1) * 100 / total) ++
            "% (" ++ toString (current + 1) ++ "/" ++ toString total ++ ")") ∧
    (total = 0 →
        (McpPhotoProgressDownloader.after_image current total).2 =
          "Downloading: " ++ toString (current + 1) ++ " images downloaded") ∧
    (∀ c t, lookupProgress progress photo_id = some (c, t) → 0 < t →
        (McpProgressDownloader.after_image progress photo_id).2 =
          some ("Chapter " ++ photo_id ++ ": " ++ toString (c + 1) ++ "/" ++
            toString t)) ∧
    (∀ c, lookupProgress progress photo_id = some (c, 0) →
        (McpProgressDownloader.after_image progress photo_id).2 = none) ∧
    (lookupProgress progress photo_id = none →
        (McpProgressDownloader.after_image progress photo_id).2 = none) := by
  refine ⟨?_, ?_, ?_, ?_, ?_⟩
  · intro h
    simp [McpPhotoProgressDownloader.after_image, h]
  · intro h
    simp [McpPhotoProgressDownloader.after_image, h]
  · intro c t hl ht
    simp [McpProgressDownloader.after_image, hl, ht]
  · intro c hl
    simp [McpProgressDownloader.after_image, hl]
  · intro hl
    simp [McpProgressDownloader.after_image, hl]

/-- Witness for C4 (amended): a zero-total chapter in the chapter-level
downloader gets the plain count message. -/
theorem after_image_message_forms_witness :
    (McpPhotoProgressDownloader.after_image 2 0).2 =
      "Downloading: " ++ toString 3 ++ " images downloaded" :=
  (after_image_message_forms [] "p" 2 0).2.1 rfl

/-- Membership is preserved by the sort step. -/
theorem mem_sortStrings {x : String} {l : List String} :
    x ∈ sortStrings l ↔ x ∈ l :=
  (List.perm_insertionSort (· ≤ ·) l).mem_iff

/-- The sort step sorts. -/
theorem sorted_sortStrings (l : List String) :
    List.Sorted (· ≤ ·) (sortStrings l) :=
  List.sorted_insertionSort (· ≤ ·) l

/-- A file is collected exactly when it is in the listing and passes
the image filter. -/
theorem mem_collectImages {f : String} {files : List String} :
    f ∈ collectImages files ↔ f ∈ files ∧ isImageFile f = true := by
  simp [collectImages, List.mem_filter, mem_sortStrings]

/-- The collected files are in lexical order. -/
theorem sorted_collectImages (files : List String) :
    List.Sorted (· ≤ ·) (collectImages files) :=
  List.Pairwise.filter _ (sorted_sortStrings files)

/-- Inversion: a produced manifest entry comes from a present
directory whose collected image list is that entry's (non-empty)
list, for the same photo. -/
theorem photoEntry_eq_some {fs : String → Option (List String)}
    {dir : JmPhoto → String} {photo p : JmPhoto} {imgs : List String}
    (h : photoEntry fs dir photo = some (p, imgs)) :
    photo = p ∧ ∃ files, fs (dir photo) = some files ∧
      imgs = collectImages files ∧ imgs ≠ [] := by
  unfold photoEntry at h
  cases hf : fs (dir photo) with
  | none => rw [hf] at h; exact absurd h (by simp)
  | some files =>
      rw [hf] at h
      by_cases he : (collectImages files).isEmpty
      · simp [he] at h
      · simp [he] at h
        refine ⟨h.1, files, rfl, h.2.symm, ?_⟩
        rw [h.2] at he
        simpa [List.isEmpty_iff] using he

/-- Introduction: a present directory with a non-empty collected image
list produces the corresponding manifest entry. -/
theorem photoEntry_eq_some_of {fs : String → Option (List String)}
    {dir : JmPhoto → String} {photo : JmPhoto} {files : List String}
    (hf : fs (dir photo) = some files) (hne : collectImages files ≠ []) :
    photoEntry fs dir photo = some (photo, collectImages files) := by
  simp [photoEntry, hf, List.isEmpty_iff, hne]

/-- C7: in the manifest reconstruction of `post_process`, a chapter
whose predicted directory is absent contributes no entry (and no
error); a present directory contributes exactly the files whose
(case-insensitive) extension is a recognized image format and whose
name does not start with the hidden-file marker, in lexical filename
order; and a chapter appears in the manifest exactly when it
contributes at least one such file. -/
theorem buildPhotoDict_manifest
    (fs : String → Option (List String)) (dir : JmPhoto → String)
    (photos : List JmPhoto) :
    (∀ p, p ∈ photos → fs (dir p) = none →
        ∀ imgs, (p, imgs) ∉ buildPhotoDict fs dir photos) ∧
    (∀ p, p ∈ photos → ∀ files, fs (dir p) = some files →
        collectImages files ≠ [] →
        (p, collectImages files) ∈ buildPhotoDict fs dir photos) ∧
    (∀ p imgs, (p, imgs) ∈ buildPhotoDict fs dir photos →
        imgs ≠ [] ∧ ∃ files, fs (dir p) = some files ∧
          imgs = collectImages files) ∧
    (∀ files f, f ∈ collectImages files ↔
        f ∈ files ∧ isImageFile f = true) ∧
    (∀ files, List.Sorted (· ≤ ·) (collectImages files)) := by
  refine ⟨?_, ?_, ?_, fun files f => mem_collectImages,
    fun files => sorted_collectImages files⟩
  · intro p _ hnone imgs hmem
    rw [buildPhotoDict, List.mem_filterMap] at hmem
    obtain ⟨a, _, hea⟩ := hmem
    obtain ⟨rfl, files, hfa, -, -⟩ := photoEntry_eq_some hea
    rw [hnone] at hfa
    exact absurd hfa (by simp)
  · intro p hp files hf hne
    rw [buildPhotoDict, List.mem_filterMap]
    exact ⟨p, hp, photoEntry_eq_some_of hf hne⟩
  · intro p imgs hmem
    rw [buildPhotoDict, List.mem_filterMap] at hmem
    obtain ⟨a, _, hea⟩ := hmem
    obtain ⟨rfl, files, hfa, himgs, hne⟩ := photoEntry_eq_some hea
    exact ⟨hne, files, hfa, himgs⟩

/-- Witness for C7: a concrete directory listing is filtered to the
recognized non-hidden image files and the chapter enters the
manifest. -/
theorem buildPhotoDict_manifest_witness :
    (⟨"p1"⟩, collectImages ["002.png", "001.jpg", ".DS_Store", "notes.txt"]) ∈
      buildPhotoDict (fun _ => some ["002.png", "001.jpg", ".DS_Store", "notes.txt"])
        (fun _ => "/dl/a/p1") [⟨"p1"⟩] :=
  (buildPhotoDict_manifest
      (fun _ => some ["002.png", "001.jpg", ".DS_Store", "notes.txt"])
      (fun _ => "/dl/a/p1") [⟨"p1"⟩]).2.1
    ⟨"p1"⟩ (by simp) ["002.png", "001.jpg", ".DS_Store", "notes.txt"] rfl
    (fun hnil => by
      have h1 : "001.jpg" ∈
          collectImages ["002.png", "001.jpg", ".DS_Store", "notes.txt"] :=
        mem_collectImages.mpr ⟨by simp, by decide⟩
      rw [hnil] at h1
      simp at h1)

/-- C3 counterexample: on an album with no chapter directory present,
`post_process` does return `status = "error"` with an empty
`output_path` and without reaching the plugin stage, but the returned
message names only the album id — it does not contain the expected
root directory (which is only logged). -/
theorem post_process_empty_manifest_counterexample :
    post_process (fun _ => none) (fun _ => "/dl/album-123/p1")
        (fun _ => "/dl/album-123")
        (fun _ _ => { status := "success", album_id := "123",
                      process_type := "zip", output_path := "x",
                      is_directory := false, message := "plugin ran" })
        { album_id := "123", name := "T", photos := [{ photo_id := "p1" }] }
        "123" "zip" =
      ({ status := "error", album_id := "123", process_type := "zip",
         output_path := "", is_directory := false,
         message := "Error: No downloaded images found for album 123." },
       false) ∧
    strContains "Error: No downloaded images found for album 123."
      "/dl/album-123" = false := by
  exact ⟨rfl, rfl⟩

/-- C3 (amended): for every album whose reconstructed manifest is
empty, `post_process` fails fast with `status = "error"`, an empty
`output_path`, and a message naming the album id (the expected root
directory is computed only for the log, not for the returned message),
and never reaches the plugin stage. -/
theorem post_process_empty_manifest_fail_fast
    (fs : String → Option (List String)) (dir : JmPhoto → String)
    (root : JmAlbumDetail → String)
    (plugin_stage : JmAlbumDetail → List (JmPhoto × List String) → PostProcessResult)
    (album : JmAlbumDetail) (album_id process_type : String)
    (h : buildPhotoDict fs dir album.photos = []) :
    post_process fs dir root plugin_stage album album_id process_type =
      ({ status := "error", album_id := album_id,
         process_type := process_type, output_path := "",
         is_directory := false,
         message := "Error: No downloaded images found for album " ++
           album_id ++ "." },
       false) := by
  simp [post_process, h]

/-- Witness for C3 (amended): concrete empty-manifest album. -/
theorem post_process_empty_manifest_fail_fast_witness :
    post_process (fun _ => none) (fun _ => "/dl/album-9/p1")
        (fun _ => "/dl/album-9")
        (fun _ _ => { status := "success", album_id := "9",
                      process_type := "zip", output_path := "x",
                      is_directory := false, message := "plugin ran" })
        { album_id := "9", name := "T", photos := [{ photo_id := "p1" }] }
        "9" "zip" =
      ({ status := "error", album_id := "9", process_type := "zip",
         output_path := "", is_directory := false,
         message := "Error: No downloaded images found for album " ++
           "9" ++ "." },
       false) :=
  post_process_empty_manifest_fail_fast (fun _ => none)
    (fun _ => "/dl/album-9/p1") (fun _ => "/dl/album-9")
    (fun _ _ => { status := "success", album_id := "9",
                  process_type := "zip", output_path := "x",
                  is_directory := false, message := "plugin ran" })
    { album_id := "9", name := "T", photos := [{ photo_id := "p1" }] }
    "9" "zip" rfl

end JmcomicAi
